import Mathlib

/-
Shallow embedding of the admission-control core of the repository:
  src/src/api/middleware/rate_limit.py  (RateLimitMiddleware)
  src/src/api/middleware/logging.py     (RequestLoggingMiddleware)

Modelling decisions:
  - Python floats (token counts, timestamps) are modelled as rationals.
  - The per-process dict `self.tokens` (IP -> (tokens, last_refill_time)) is an
    association list with Python dict update semantics: updating an existing key
    keeps its position, a new key is appended.
  - Each call to dispatch receives one timestamp `now`; the two adjacent
    time.time() calls inside a single Python dispatch (lazy init and refill)
    are modelled by the same `now`.
  - The downstream handler (call_next) is a parameter: for the rate limiter it
    is the response it would return; for the logging middleware it is an
    Except value (ok response or raised exception message).
-/

/-- One value of the dict self.tokens: the pair (tokens, last_refill_time). -/
structure Bucket where
  tokens : ℚ
  lastRefill : ℚ
  deriving DecidableEq, Repr

/-- The self.tokens dict: IP address to bucket, Python dict semantics. -/
abbrev Store := List (String × Bucket)

/-- Dict lookup: self.tokens[client_ip], as an Option. -/
def Store.lookup : Store → String → Option Bucket
  | [], _ => none
  | (k, b) :: rest, key => if k = key then some b else Store.lookup rest key

/-- Dict assignment self.tokens[client_ip] = b: replace in place or append. -/
def Store.insert : Store → String → Bucket → Store
  | [], key, b => [(key, b)]
  | (k, b0) :: rest, key, b =>
      if k = key then (key, b) :: rest else (k, b0) :: Store.insert rest key b

/-- Response bodies: the structured error object the limiter builds, or the
body produced downstream (opaque to the middleware). -/
inductive Content
  | errorObj (msg : String)
  | passthrough
  deriving DecidableEq, Repr

/-- A Starlette Response as the middleware observes it. -/
structure Response where
  content : Content
  status_code : ℕ
  headers : List (String × String)
  deriving DecidableEq, Repr

/-- The mutable fields of RateLimitMiddleware set by __init__. -/
structure RateLimitMiddleware where
  requests_per_minute : ℤ
  tokens : Store
  refill_rate : ℚ
  deriving DecidableEq, Repr

/-- The error class the spec names for invalid configuration. -/
inductive ConfigurationError
  | invalid
  deriving DecidableEq, Repr

/-- State produced by __init__: requests_per_minute stored, empty dict,
refill_rate = requests_per_minute / 60.0. -/
def RateLimitMiddleware.initState (requests_per_minute : ℤ) : RateLimitMiddleware :=
  { requests_per_minute := requests_per_minute
    tokens := []
    refill_rate := (requests_per_minute : ℚ) / 60 }

/-- The constructor __init__ as fallible code: the Python body only assigns
fields and contains no validation and no raise, so it always returns ok. -/
def RateLimitMiddleware.init (requests_per_minute : ℤ) :
    Except ConfigurationError RateLimitMiddleware :=
  .ok (RateLimitMiddleware.initState requests_per_minute)

/-- The 429 response built in the new_tokens < 1 branch of dispatch. -/
def rateLimitResponse : Response :=
  { content := .errorObj "Rate limit exceeded. Please try again later."
    status_code := 429
    headers := [("Retry-After", "60")] }

/-- The bucket dispatch reads for client_ip: the stored one, or the one the
lazy-init line self.tokens[client_ip] = (self.requests_per_minute, time.time())
just wrote for a new client. -/
def RateLimitMiddleware.bucketFor (m : RateLimitMiddleware) (client_ip : String)
    (now : ℚ) : Bucket :=
  (Store.lookup m.tokens client_ip).getD
    { tokens := (m.requests_per_minute : ℚ), lastRefill := now }

/-- new_tokens = min(self.requests_per_minute, tokens + time_passed * self.refill_rate)
with time_passed = now - last_refill (no clamping in the source). -/
def RateLimitMiddleware.newTokens (m : RateLimitMiddleware) (client_ip : String)
    (now : ℚ) : ℚ :=
  let b := m.bucketFor client_ip now
  let time_passed := now - b.lastRefill
  min ((m.requests_per_minute : ℚ)) (b.tokens + time_passed * m.refill_rate)

/-- The lazy-init lines of dispatch: if client_ip not in self.tokens, write
self.tokens[client_ip] = (self.requests_per_minute, time.time()); the store
after those lines. -/
def RateLimitMiddleware.lazyInitStore (m : RateLimitMiddleware) (client_ip : String)
    (now : ℚ) : Store :=
  match Store.lookup m.tokens client_ip with
  | none => Store.insert m.tokens client_ip
      { tokens := (m.requests_per_minute : ℚ), lastRefill := now }
  | some _ => m.tokens

/-- RateLimitMiddleware.dispatch. Returns the middleware state after the
request, whether call_next was invoked, and the response returned.
Line-by-line: bypass /health; lazy-init the bucket for a new client; refill;
if new_tokens < 1 return the 429 response without touching the dict further;
otherwise write (new_tokens - 1, now) and forward. -/
def RateLimitMiddleware.dispatch (m : RateLimitMiddleware) (client_ip path : String)
    (now : ℚ) (next : Response) : RateLimitMiddleware × Bool × Response :=
  if path = "/health" then
    (m, true, next)
  else
    let store := m.lazyInitStore client_ip now
    let new_tokens := m.newTokens client_ip now
    if new_tokens < 1 then
      ({ m with tokens := store }, false, rateLimitResponse)
    else
      ({ m with tokens := (Store.insert store client_ip
            { tokens := new_tokens - 1, lastRefill := now }) },
        true, next)

/-- Modelled from the spec: the retry delay the spec prescribes for a denial,
ceil of (1 - refilledTokens) / refillRatePerSecond. The source does not
compute this; it is stated here to compare against the source behaviour. -/
def specRetryAfterSeconds (m : RateLimitMiddleware) (client_ip : String)
    (now : ℚ) : ℤ :=
  Int.ceil ((1 - m.newTokens client_ip now) / m.refill_rate)

/-- One request event: client ip, path, timestamp. -/
abbrev RequestEvent := String × String × ℚ

/-- Run a sequence of requests through the middleware, threading the state. -/
def runRequests (m : RateLimitMiddleware) (reqs : List RequestEvent)
    (next : Response) : RateLimitMiddleware :=
  reqs.foldl (fun s r => (s.dispatch r.1 r.2.1 r.2.2 next).1) m

/-- Iterate n dispatches of the same client, path and timestamp. -/
def iterDispatch (m : RateLimitMiddleware) (client_ip path : String) (now : ℚ)
    (next : Response) : ℕ → RateLimitMiddleware
  | 0 => m
  | n + 1 => ((iterDispatch m client_ip path now next n).dispatch client_ip path now next).1

/-- Whether the (n+1)-th of those dispatches invoked call_next. -/
def allowedAt (m : RateLimitMiddleware) (client_ip path : String) (now : ℚ)
    (next : Response) (n : ℕ) : Bool :=
  ((iterDispatch m client_ip path now next n).dispatch client_ip path now next).2.1

/-- The token-range invariant of the store: every stored bucket has
0 <= tokens <= cap. -/
def StoreInv (cap : ℚ) (s : Store) : Prop :=
  ∀ kb ∈ s, 0 ≤ kb.2.tokens ∧ kb.2.tokens ≤ cap

instance (cap : ℚ) (s : Store) : Decidable (StoreInv cap s) := by
  unfold StoreInv; infer_instance

/-- One line emitted by the logging middleware. -/
inductive LogEntry
  | requestLine (method path : String)
  | responseLine (method path : String) (status : ℕ) (elapsed : ℚ)
  | errorLine (method path : String) (message : String) (elapsed : ℚ)
  deriving DecidableEq, Repr

/-- RequestLoggingMiddleware.dispatch: log the request line; run call_next;
on success log status and elapsed time and attach the X-Process-Time header;
on failure log the error with elapsed time and re-raise the same exception.
start_time and finish_time are the two time.time() readings. -/
def RequestLoggingMiddleware.dispatch (method path : String)
    (start_time finish_time : ℚ) (call_next : Except String Response) :
    List LogEntry × Except String Response :=
  let requestLog := [LogEntry.requestLine method path]
  match call_next with
  | .ok response =>
      let process_time := finish_time - start_time
      (requestLog ++ [LogEntry.responseLine method path response.status_code process_time],
        .ok { response with
              headers := response.headers ++ [("X-Process-Time", toString process_time)] })
  | .error e =>
      let process_time := finish_time - start_time
      (requestLog ++ [LogEntry.errorLine method path e process_time], .error e)

/-- A concrete downstream response used in witnesses and counterexamples. -/
def sampleNext : Response :=
  { content := .passthrough, status_code := 200, headers := [] }

/-- Concrete run: limiter with requests_per_minute = 1 after one allowed
request from client c at time 0; its stored bucket is (0, 0). -/
def exhausted1 : RateLimitMiddleware :=
  ((RateLimitMiddleware.initState 1).dispatch "c" "/" 0 sampleNext).1

/-- Concrete run: the evaluation of the next request of client c at time 1/2
against exhausted1; the refilled count is 1/120 < 1, so it is denied. -/
def deniedEval1 : RateLimitMiddleware × Bool × Response :=
  exhausted1.dispatch "c" "/" (1/2) sampleNext

/-- Concrete run: limiter with requests_per_minute = 2 after two allowed
requests from client c at time 0; its stored bucket is (0, 0). -/
def exhausted2 : RateLimitMiddleware :=
  runRequests (RateLimitMiddleware.initState 2) [("c", "/", 0), ("c", "/", 0)] sampleNext

/-- Concrete run: the evaluation of a third request of client c at time 0
against exhausted2; the refilled count is 0 < 1, so it is denied. -/
def deniedEval2 : RateLimitMiddleware × Bool × Response :=
  exhausted2.dispatch "c" "/" 0 sampleNext

/-- Concrete run: limiter with requests_per_minute = 60 (refill_rate = 1)
after one allowed request from client c at time 10; its bucket is (59, 10). -/
def regressState : RateLimitMiddleware :=
  ((RateLimitMiddleware.initState 60).dispatch "c" "/" 10 sampleNext).1

/-- Concrete run: the evaluation of the next request of client c at the
regressed time 8 against regressState. -/
def regressEval : RateLimitMiddleware × Bool × Response :=
  regressState.dispatch "c" "/" 8 sampleNext

/-- Characterization of dispatch used throughout: its three branches. -/
theorem dispatch_eq (m : RateLimitMiddleware) (client_ip path : String) (now : ℚ)
    (next : Response) :
    m.dispatch client_ip path now next =
      if path = "/health" then (m, true, next)
      else if m.newTokens client_ip now < 1 then
        ({ m with tokens := m.lazyInitStore client_ip now }, false, rateLimitResponse)
      else
        ({ m with tokens := (Store.insert (m.lazyInitStore client_ip now) client_ip
            { tokens := m.newTokens client_ip now - 1, lastRefill := now }) },
          true, next) := rfl

/-- Dispatch never changes requests_per_minute. -/
theorem dispatch_rpm (m : RateLimitMiddleware) (client_ip path : String) (now : ℚ)
    (next : Response) :
    (m.dispatch client_ip path now next).1.requests_per_minute = m.requests_per_minute := by
  rw [dispatch_eq]
  split_ifs <;> rfl

/-- Looking up the key just inserted yields the inserted bucket. -/
theorem lookup_insert_self (s : Store) (key : String) (b : Bucket) :
    Store.lookup (Store.insert s key b) key = some b := by
  induction s with
  | nil => simp [Store.insert, Store.lookup]
  | cons hd tl ih =>
      rcases hd with ⟨k, b0⟩
      by_cases hk : k = key
      · simp [Store.insert, Store.lookup, hk]
      · simp [Store.insert, Store.lookup, hk, ih]

/-- Every entry of an insert result was already present or is the new pair. -/
theorem mem_insert_elim (key : String) (b : Bucket) :
    ∀ (s : Store) (kb : String × Bucket),
      kb ∈ Store.insert s key b → kb ∈ s ∨ kb = (key, b) := by
  intro s
  induction s with
  | nil =>
      intro kb h
      simp [Store.insert] at h
      exact Or.inr h
  | cons hd tl ih =>
      intro kb h
      rcases hd with ⟨k, b0⟩
      by_cases hk : k = key
      · rw [Store.insert, if_pos hk] at h
        rcases List.mem_cons.mp h with h1 | h1
        · exact Or.inr h1
        · exact Or.inl (List.mem_cons_of_mem _ h1)
      · rw [Store.insert, if_neg hk] at h
        rcases List.mem_cons.mp h with h1 | h1
        · exact Or.inl (h1 ▸ List.mem_cons_self _ _)
        · rcases ih kb h1 with h2 | h2
          · exact Or.inl (List.mem_cons_of_mem _ h2)
          · exact Or.inr h2

/-- Inserting a bucket inside the range keeps the store invariant. -/
theorem storeInv_insert {cap : ℚ} {s : Store} (hs : StoreInv cap s) {key : String}
    {b : Bucket} (h0 : 0 ≤ b.tokens) (h1 : b.tokens ≤ cap) :
    StoreInv cap (Store.insert s key b) := by
  intro kb hkb
  rcases mem_insert_elim key b s kb hkb with h | h
  · exact hs kb h
  · rw [h]
    exact ⟨h0, h1⟩

/-- When the client is already tracked, lazy init leaves the store alone. -/
theorem lazyInitStore_of_some {m : RateLimitMiddleware} {client_ip : String}
    {now : ℚ} {b : Bucket} (h : Store.lookup m.tokens client_ip = some b) :
    m.lazyInitStore client_ip now = m.tokens := by
  simp [RateLimitMiddleware.lazyInitStore, h]

/-- For a new client, lazy init inserts a full bucket stamped now. -/
theorem lazyInitStore_of_none {m : RateLimitMiddleware} {client_ip : String}
    {now : ℚ} (h : Store.lookup m.tokens client_ip = none) :
    m.lazyInitStore client_ip now =
      Store.insert m.tokens client_ip
        { tokens := (m.requests_per_minute : ℚ), lastRefill := now } := by
  simp [RateLimitMiddleware.lazyInitStore, h]

/-- The refill count for a tracked client, unfolded. -/
theorem newTokens_of_some {m : RateLimitMiddleware} {client_ip : String}
    {now : ℚ} {b : Bucket} (h : Store.lookup m.tokens client_ip = some b) :
    m.newTokens client_ip now =
      min ((m.requests_per_minute : ℚ)) (b.tokens + (now - b.lastRefill) * m.refill_rate) := by
  simp [RateLimitMiddleware.newTokens, RateLimitMiddleware.bucketFor, h]

/-- The refill count for a new client is exactly the capacity. -/
theorem newTokens_of_none {m : RateLimitMiddleware} {client_ip : String}
    {now : ℚ} (h : Store.lookup m.tokens client_ip = none) :
    m.newTokens client_ip now = (m.requests_per_minute : ℚ) := by
  simp [RateLimitMiddleware.newTokens, RateLimitMiddleware.bucketFor, h]

/-- The refill count never exceeds the capacity. -/
theorem newTokens_le (m : RateLimitMiddleware) (client_ip : String) (now : ℚ) :
    m.newTokens client_ip now ≤ (m.requests_per_minute : ℚ) :=
  min_le_left _ _

/-- Lazy init keeps the store invariant when the capacity is non-negative. -/
theorem lazyInitStore_inv {m : RateLimitMiddleware} {client_ip : String} {now : ℚ}
    (hcap : 0 ≤ (m.requests_per_minute : ℚ))
    (hinv : StoreInv (m.requests_per_minute : ℚ) m.tokens) :
    StoreInv (m.requests_per_minute : ℚ) (m.lazyInitStore client_ip now) := by
  unfold RateLimitMiddleware.lazyInitStore
  cases h : Store.lookup m.tokens client_ip with
  | none => exact storeInv_insert hinv hcap (le_refl _)
  | some b => exact hinv

/-- One dispatch preserves the token-range invariant. -/
theorem dispatch_inv {m : RateLimitMiddleware} (client_ip path : String) (now : ℚ)
    (next : Response) (hcap : 0 ≤ (m.requests_per_minute : ℚ))
    (hinv : StoreInv (m.requests_per_minute : ℚ) m.tokens) :
    StoreInv (m.requests_per_minute : ℚ) (m.dispatch client_ip path now next).1.tokens := by
  rw [dispatch_eq]
  split_ifs with hp hlt
  · exact hinv
  · exact lazyInitStore_inv hcap hinv
  · have h1 : 1 ≤ m.newTokens client_ip now := not_lt.mp hlt
    have h2 : m.newTokens client_ip now ≤ (m.requests_per_minute : ℚ) :=
      newTokens_le m client_ip now
    exact storeInv_insert (lazyInitStore_inv hcap hinv)
      (show (0 : ℚ) ≤ m.newTokens client_ip now - 1 by linarith)
      (show m.newTokens client_ip now - 1 ≤ (m.requests_per_minute : ℚ) by linarith)

/-- Running any request sequence preserves the invariant and the capacity. -/
theorem runRequests_inv (reqs : List RequestEvent) (next : Response) :
    ∀ m : RateLimitMiddleware, 0 ≤ (m.requests_per_minute : ℚ) →
      StoreInv (m.requests_per_minute : ℚ) m.tokens →
      (runRequests m reqs next).requests_per_minute = m.requests_per_minute ∧
      StoreInv (m.requests_per_minute : ℚ) (runRequests m reqs next).tokens := by
  induction reqs with
  | nil => intro m _ hinv; exact ⟨rfl, hinv⟩
  | cons r rest ih =>
      intro m hcap hinv
      have hstep : (m.dispatch r.1 r.2.1 r.2.2 next).1.requests_per_minute =
          m.requests_per_minute := dispatch_rpm m r.1 r.2.1 r.2.2 next
      have hinv2 : StoreInv (m.requests_per_minute : ℚ)
          (m.dispatch r.1 r.2.1 r.2.2 next).1.tokens :=
        dispatch_inv r.1 r.2.1 r.2.2 next hcap hinv
      have hrun : runRequests m (r :: rest) next =
          runRequests (m.dispatch r.1 r.2.1 r.2.2 next).1 rest next := rfl
      rw [hrun]
      rcases ih (m.dispatch r.1 r.2.1 r.2.2 next).1 (by rw [hstep]; exact hcap)
        (by rw [hstep]; exact hinv2) with ⟨hr1, hr2⟩
      rw [hstep] at hr1 hr2
      exact ⟨hr1, hr2⟩

/-- Bypass frame property, stated for any middleware state: a /health request
is forwarded with the state untouched and the downstream response unchanged. -/
theorem c7_health_bypass (m : RateLimitMiddleware) (client_ip : String) (now : ℚ)
    (next : Response) :
    m.dispatch client_ip "/health" now next = (m, true, next) := by
  simp [RateLimitMiddleware.dispatch]


/-- C1: for every positive capacity and every sequence of evaluations starting
from the lazily initialized empty store, with arbitrary clients, paths and
timestamps, every stored token count satisfies 0 <= tokens <= capacity after
every update. -/
theorem c1_tokens_within_capacity (rpm : ℤ) (h : 0 < rpm) (reqs : List RequestEvent)
    (next : Response) :
    StoreInv ((rpm : ℚ)) ((runRequests (RateLimitMiddleware.initState rpm) reqs next).tokens) := by
  have h0 : (0 : ℚ) ≤ (rpm : ℚ) := by exact_mod_cast le_of_lt h
  have hbase : StoreInv ((rpm : ℚ)) (RateLimitMiddleware.initState rpm).tokens := by
    intro kb hkb
    simp [RateLimitMiddleware.initState] at hkb
  exact (runRequests_inv reqs next (RateLimitMiddleware.initState rpm) h0 hbase).2

/-- C1 witness: capacity 2, three same-instant requests from one client. -/
theorem c1_tokens_within_capacity_witness :
    (0 : ℤ) < 2 ∧
    StoreInv (((2 : ℤ) : ℚ))
      ((runRequests (RateLimitMiddleware.initState 2)
        [("c", "/", 0), ("c", "/", 0), ("c", "/", 0)] sampleNext).tokens) :=
  ⟨by decide, c1_tokens_within_capacity 2 (by decide)
    [("c", "/", 0), ("c", "/", 0), ("c", "/", 0)] sampleNext⟩

/-- Concrete value of exhausted1: bucket (0, 0) for client c. -/
theorem exhausted1_eq :
    exhausted1 = { requests_per_minute := 1,
                   tokens := [("c", { tokens := 0, lastRefill := 0 })],
                   refill_rate := 1/60 } := by
  simp [exhausted1, RateLimitMiddleware.dispatch, RateLimitMiddleware.initState,
    RateLimitMiddleware.newTokens, RateLimitMiddleware.bucketFor,
    RateLimitMiddleware.lazyInitStore, Store.lookup, Store.insert, sampleNext]

/-- Concrete value of exhausted2: bucket (0, 0) for client c. -/
theorem exhausted2_eq :
    exhausted2 = { requests_per_minute := 2,
                   tokens := [("c", { tokens := 0, lastRefill := 0 })],
                   refill_rate := 1/30 } := by
  simp [exhausted2, runRequests, RateLimitMiddleware.dispatch,
    RateLimitMiddleware.initState, RateLimitMiddleware.newTokens,
    RateLimitMiddleware.bucketFor, RateLimitMiddleware.lazyInitStore,
    Store.lookup, Store.insert, sampleNext]
  norm_num

/-- Concrete value of regressState: bucket (59, 10) for client c. -/
theorem regressState_eq :
    regressState = { requests_per_minute := 60,
                     tokens := [("c", { tokens := 59, lastRefill := 10 })],
                     refill_rate := 1 } := by
  simp [regressState, RateLimitMiddleware.dispatch, RateLimitMiddleware.initState,
    RateLimitMiddleware.newTokens, RateLimitMiddleware.bucketFor,
    RateLimitMiddleware.lazyInitStore, Store.lookup, Store.insert, sampleNext]
  norm_num

/-- C2 counterexample: against exhausted1 (bucket (0, 0), capacity 1,
refill rate 1/60), the request of client c at time 1/2 is denied with
refilledTokens = 1/120, yet the stored bucket remains (0, 0) rather than the
(1/120, 1/2) the claim prescribes: a deny writes nothing back. -/
theorem c2_deny_writeback_counterexample :
    deniedEval1.2.1 = false ∧
    exhausted1.newTokens "c" (1/2) = 1/120 ∧
    Store.lookup deniedEval1.1.tokens "c" = some { tokens := 0, lastRefill := 0 } ∧
    Store.lookup deniedEval1.1.tokens "c" ≠
      some { tokens := 1/120, lastRefill := 1/2 } := by
  have hb : Store.lookup exhausted1.tokens "c" = some { tokens := 0, lastRefill := 0 } := by
    rw [exhausted1_eq]
    simp [Store.lookup]
  have h1 : exhausted1.newTokens "c" (1/2) = 1/120 := by
    rw [newTokens_of_some hb, exhausted1_eq]
    norm_num [min_def]
  have h2 : deniedEval1 = (exhausted1, false, rateLimitResponse) := by
    rw [deniedEval1, dispatch_eq, if_neg (by decide), if_pos (by rw [h1]; norm_num)]
    rw [show exhausted1.lazyInitStore "c" (1/2) = exhausted1.tokens from
      lazyInitStore_of_some hb]
  exact ⟨by rw [h2], h1, by rw [h2]; exact hb, by rw [h2, hb]; norm_num⟩

/-- C2 amended: on a Deny for an already-tracked client the evaluation leaves
that client's stored bucket exactly as it was: the failed attempt neither
advances the refill clock nor consumes a token. -/
theorem c2_deny_leaves_bucket_unchanged (m : RateLimitMiddleware)
    (client_ip path : String) (now : ℚ) (next : Response) (b : Bucket)
    (hb : Store.lookup m.tokens client_ip = some b)
    (hden : (m.dispatch client_ip path now next).2.1 = false) :
    Store.lookup (m.dispatch client_ip path now next).1.tokens client_ip = some b := by
  rw [dispatch_eq] at hden ⊢
  split_ifs at hden ⊢ with hp hlt
  show Store.lookup (m.lazyInitStore client_ip now) client_ip = some b
  rw [lazyInitStore_of_some hb]
  exact hb

/-- C2 amended witness: the denied request of client c at time 1/2 against
exhausted1 leaves its bucket at (0, 0). -/
theorem c2_deny_leaves_bucket_unchanged_witness :
    Store.lookup exhausted1.tokens "c" = some { tokens := 0, lastRefill := 0 } ∧
    (exhausted1.dispatch "c" "/" (1/2) sampleNext).2.1 = false ∧
    Store.lookup (exhausted1.dispatch "c" "/" (1/2) sampleNext).1.tokens "c" =
      some { tokens := 0, lastRefill := 0 } := by
  have hb : Store.lookup exhausted1.tokens "c" = some { tokens := 0, lastRefill := 0 } := by
    rw [exhausted1_eq]
    simp [Store.lookup]
  have hden : (exhausted1.dispatch "c" "/" (1/2) sampleNext).2.1 = false := by
    rw [dispatch_eq, if_neg (by decide), if_pos]
    rw [newTokens_of_some hb, exhausted1_eq]
    norm_num [min_def]
  exact ⟨hb, hden,
    c2_deny_leaves_bucket_unchanged exhausted1 "c" "/" (1/2) sampleNext _ hb hden⟩

/-- C3 counterexample: against exhausted2 (bucket (0, 0), capacity 2, refill
rate 1/30) the request of client c at time 0 is denied; the spec formula
ceil((1 - refilledTokens) / refillRatePerSecond) gives 30, but the response
reports the hard-coded Retry-After of 60. -/
theorem c3_retry_after_formula_counterexample :
    deniedEval2.2.1 = false ∧
    deniedEval2.2.2.headers = [("Retry-After", "60")] ∧
    specRetryAfterSeconds exhausted2 "c" 0 = 30 ∧
    specRetryAfterSeconds exhausted2 "c" 0 ≠ 60 := by
  have hb : Store.lookup exhausted2.tokens "c" = some { tokens := 0, lastRefill := 0 } := by
    rw [exhausted2_eq]
    simp [Store.lookup]
  have h1 : exhausted2.newTokens "c" 0 = 0 := by
    rw [newTokens_of_some hb, exhausted2_eq]
    norm_num [min_def]
  have h2 : deniedEval2 = (exhausted2, false, rateLimitResponse) := by
    rw [deniedEval2, dispatch_eq, if_neg (by decide), if_pos (by rw [h1]; norm_num)]
    rw [show exhausted2.lazyInitStore "c" 0 = exhausted2.tokens from
      lazyInitStore_of_some hb]
  have h3 : specRetryAfterSeconds exhausted2 "c" 0 = 30 := by
    rw [specRetryAfterSeconds, h1, exhausted2_eq]
    norm_num
  exact ⟨by rw [h2], by rw [h2]; rfl, h3, by rw [h3]; decide⟩

/-- C3 amended: every denied request reports the hard-coded Retry-After of
exactly 60 seconds, regardless of bucket state or time between denials; it is
trivially at least 1 but it never shrinks as time passes. -/
theorem c3_retry_after_constant_sixty (m : RateLimitMiddleware)
    (client_ip path : String) (now : ℚ) (next : Response)
    (hden : (m.dispatch client_ip path now next).2.1 = false) :
    (m.dispatch client_ip path now next).2.2.headers = [("Retry-After", "60")] := by
  rw [dispatch_eq] at hden ⊢
  split_ifs at hden ⊢
  rfl

/-- C3 amended witness: the denial of the third same-instant request of
client c against exhausted2 carries Retry-After 60. -/
theorem c3_retry_after_constant_sixty_witness :
    (exhausted2.dispatch "c" "/" 0 sampleNext).2.1 = false ∧
    (exhausted2.dispatch "c" "/" 0 sampleNext).2.2.headers = [("Retry-After", "60")] := by
  have hb : Store.lookup exhausted2.tokens "c" = some { tokens := 0, lastRefill := 0 } := by
    rw [exhausted2_eq]
    simp [Store.lookup]
  have hden : (exhausted2.dispatch "c" "/" 0 sampleNext).2.1 = false := by
    rw [dispatch_eq, if_neg (by decide), if_pos]
    rw [newTokens_of_some hb, exhausted2_eq]
    norm_num [min_def]
  exact ⟨hden, c3_retry_after_constant_sixty exhausted2 "c" "/" 0 sampleNext hden⟩

/-- C4 counterexample: regressState holds bucket (59, 10) with capacity 60 and
refill rate 1. A request at the regressed time 8 uses elapsed = 8 - 10 = -2
(not max(0, -2) = 0): the refilled count is 57 where the claimed clamped
computation gives 59, the request is admitted, and the stored bucket becomes
(56, 8), so lastRefill decreases from 10 to 8. -/
theorem c4_clamping_counterexample :
    Store.lookup regressState.tokens "c" = some { tokens := 59, lastRefill := 10 } ∧
    regressState.newTokens "c" 8 = 57 ∧
    min ((60 : ℚ)) (59 + max 0 (8 - 10) * 1) = 59 ∧
    regressEval.2.1 = true ∧
    Store.lookup regressEval.1.tokens "c" = some { tokens := 56, lastRefill := 8 } ∧
    (8 : ℚ) < 10 := by
  have hb : Store.lookup regressState.tokens "c" = some { tokens := 59, lastRefill := 10 } := by
    rw [regressState_eq]
    simp [Store.lookup]
  have h1 : regressState.newTokens "c" 8 = 57 := by
    rw [newTokens_of_some hb, regressState_eq]
    norm_num [min_def]
  have h2 : regressEval =
      ({ requests_per_minute := 60, tokens := [("c", { tokens := 56, lastRefill := 8 })],
         refill_rate := 1 }, true, sampleNext) := by
    rw [regressEval, dispatch_eq, if_neg (by decide), if_neg (by rw [h1]; norm_num)]
    rw [show regressState.lazyInitStore "c" 8 = regressState.tokens from
      lazyInitStore_of_some hb]
    rw [h1, regressState_eq]
    simp [Store.insert]
    norm_num
  refine ⟨hb, h1, by norm_num [min_def, max_def], by rw [h2],
    by rw [h2]; simp [Store.lookup], by norm_num⟩

/-- C4 amended: the source computes elapsed = now - lastRefill with no
clamping; when the supplied timestamp is not earlier than the stored
lastRefill, the stored lastRefill never decreases across the evaluation (on a
clock regression, tokens are drained and lastRefill can decrease, as the
counterexample shows). -/
theorem c4_lastRefill_monotone_without_regression (m : RateLimitMiddleware)
    (client_ip path : String) (now : ℚ) (next : Response) (b : Bucket)
    (hb : Store.lookup m.tokens client_ip = some b)
    (hle : b.lastRefill ≤ now) :
    ∃ b2 : Bucket,
      Store.lookup (m.dispatch client_ip path now next).1.tokens client_ip = some b2 ∧
      b.lastRefill ≤ b2.lastRefill := by
  rw [dispatch_eq]
  split_ifs with hp hlt
  · exact ⟨b, hb, le_refl _⟩
  · refine ⟨b, ?_, le_refl _⟩
    show Store.lookup (m.lazyInitStore client_ip now) client_ip = some b
    rw [lazyInitStore_of_some hb]
    exact hb
  · refine ⟨{ tokens := m.newTokens client_ip now - 1, lastRefill := now }, ?_, hle⟩
    show Store.lookup (Store.insert (m.lazyInitStore client_ip now) client_ip
      { tokens := m.newTokens client_ip now - 1, lastRefill := now }) client_ip = some _
    exact lookup_insert_self _ _ _

/-- C4 amended witness: client c of exhausted1 evaluated at the later time 5
keeps a lastRefill at least its previous value 0. -/
theorem c4_lastRefill_monotone_without_regression_witness :
    Store.lookup exhausted1.tokens "c" = some { tokens := 0, lastRefill := 0 } ∧
    (Bucket.mk 0 0).lastRefill ≤ (5 : ℚ) ∧
    ∃ b2 : Bucket,
      Store.lookup (exhausted1.dispatch "c" "/" 5 sampleNext).1.tokens "c" = some b2 ∧
      (Bucket.mk 0 0).lastRefill ≤ b2.lastRefill := by
  have hb : Store.lookup exhausted1.tokens "c" = some { tokens := 0, lastRefill := 0 } := by
    rw [exhausted1_eq]
    simp [Store.lookup]
  have hle : (Bucket.mk 0 0).lastRefill ≤ (5 : ℚ) := by norm_num
  exact ⟨hb, hle,
    c4_lastRefill_monotone_without_regression exhausted1 "c" "/" 5 sampleNext _ hb hle⟩

/-- Double assignment to the same key collapses to the last one. -/
theorem insert_insert_self (k : String) (b1 b2 : Bucket) :
    ∀ s : Store, Store.insert (Store.insert s k b1) k b2 = Store.insert s k b2 := by
  intro s
  induction s with
  | nil => simp [Store.insert]
  | cons hd tl ih =>
      rcases hd with ⟨k0, b0⟩
      by_cases hk : k0 = k
      · simp [Store.insert, hk]
      · simp [Store.insert, hk, ih]

/-- Dispatch on a tracked client with enough refilled tokens: admitted, one
token consumed, lastRefill stamped now. -/
theorem dispatch_of_some_allow (m : RateLimitMiddleware) (client_ip path : String)
    (now : ℚ) (next : Response) (b : Bucket)
    (hp : ¬(path = "/health")) (hb : Store.lookup m.tokens client_ip = some b)
    (hge : 1 ≤ m.newTokens client_ip now) :
    m.dispatch client_ip path now next =
      ({ m with tokens := (Store.insert m.tokens client_ip
          { tokens := m.newTokens client_ip now - 1, lastRefill := now }) }, true, next) := by
  rw [dispatch_eq, if_neg hp, if_neg (not_lt.mpr hge), lazyInitStore_of_some hb]

/-- Dispatch on a tracked client with too few refilled tokens: denied, the
whole middleware state is returned unchanged. -/
theorem dispatch_of_some_deny (m : RateLimitMiddleware) (client_ip path : String)
    (now : ℚ) (next : Response) (b : Bucket)
    (hp : ¬(path = "/health")) (hb : Store.lookup m.tokens client_ip = some b)
    (hlt : m.newTokens client_ip now < 1) :
    m.dispatch client_ip path now next = (m, false, rateLimitResponse) := by
  rw [dispatch_eq, if_neg hp, if_pos hlt, lazyInitStore_of_some hb]

/-- Dispatch on a new client with capacity at least 1: admitted, the bucket is
created at capacity and one token consumed. -/
theorem dispatch_of_none_allow (m : RateLimitMiddleware) (client_ip path : String)
    (now : ℚ) (next : Response)
    (hp : ¬(path = "/health")) (hb : Store.lookup m.tokens client_ip = none)
    (hge : 1 ≤ (m.requests_per_minute : ℚ)) :
    m.dispatch client_ip path now next =
      ({ m with tokens := (Store.insert m.tokens client_ip
          { tokens := (m.requests_per_minute : ℚ) - 1, lastRefill := now }) }, true, next) := by
  have hnt := @newTokens_of_none m client_ip now hb
  rw [dispatch_eq, if_neg hp, if_neg (by rw [hnt]; exact not_lt.mpr hge), hnt,
    lazyInitStore_of_none hb, insert_insert_self]

/-- State of the same-instant burst after n+1 requests: one bucket for client
c with capacity minus (n+1) tokens. -/
theorem iter_burst_succ (rpm : ℤ) (h : 1 ≤ rpm) (t : ℚ) (next : Response) :
    ∀ n : ℕ, n + 1 ≤ rpm.toNat →
      iterDispatch (RateLimitMiddleware.initState rpm) "c" "/" t next (n + 1) =
        { requests_per_minute := rpm,
          tokens := [("c", { tokens := (rpm : ℚ) - ((n : ℚ) + 1), lastRefill := t })],
          refill_rate := (rpm : ℚ) / 60 } := by
  intro n
  induction n with
  | zero =>
      intro _
      rw [iterDispatch, iterDispatch]
      rw [dispatch_of_none_allow (RateLimitMiddleware.initState rpm) "c" "/" t next
        (by decide) rfl (by exact_mod_cast h)]
      simp [RateLimitMiddleware.initState, Store.insert]
  | succ n ih =>
      intro hle
      have hn : n + 1 ≤ rpm.toNat := by omega
      have hcast : ((n : ℚ)) + 2 ≤ (rpm : ℚ) := by
        have hz : (n : ℤ) + 2 ≤ rpm := by omega
        exact_mod_cast hz
      rw [iterDispatch, ih hn]
      set M : RateLimitMiddleware :=
        { requests_per_minute := rpm,
          tokens := [("c", { tokens := (rpm : ℚ) - ((n : ℚ) + 1), lastRefill := t })],
          refill_rate := (rpm : ℚ) / 60 } with hM
      have hb : Store.lookup M.tokens "c" =
          some { tokens := (rpm : ℚ) - ((n : ℚ) + 1), lastRefill := t } := by
        simp [hM, Store.lookup]
      have hnt : M.newTokens "c" t = (rpm : ℚ) - ((n : ℚ) + 1) := by
        rw [newTokens_of_some hb]
        simp only [sub_self, zero_mul, add_zero]
        exact min_eq_right (sub_le_self _ (by positivity))
      rw [dispatch_of_some_allow _ _ _ _ _ _ (by decide) hb (by rw [hnt]; linarith)]
      simp [hM, hnt, Store.insert]
      ring

/-- The refill count of a one-bucket store evaluated at its own stamp. -/
theorem newTokens_single (rpm : ℤ) (x t rr : ℚ) :
    RateLimitMiddleware.newTokens
      { requests_per_minute := rpm, tokens := [("c", { tokens := x, lastRefill := t })],
        refill_rate := rr } "c" t = min ((rpm : ℚ)) x := by
  have hb : Store.lookup
      ({ requests_per_minute := rpm, tokens := [("c", { tokens := x, lastRefill := t })],
         refill_rate := rr } : RateLimitMiddleware).tokens "c" =
      some { tokens := x, lastRefill := t } := by
    simp [Store.lookup]
  rw [newTokens_of_some hb]
  simp

/-- C5: a new client issuing capacity same-instant requests is admitted for
all of them (the bucket being created lazily at full capacity), and the
(capacity+1)-th same-instant request is denied. -/
theorem c5_burst_admission (rpm : ℤ) (h : 1 ≤ rpm) (t : ℚ) (next : Response) :
    (∀ k : ℕ, k < rpm.toNat →
      allowedAt (RateLimitMiddleware.initState rpm) "c" "/" t next k = true) ∧
    allowedAt (RateLimitMiddleware.initState rpm) "c" "/" t next rpm.toNat = false := by
  constructor
  · intro k hk
    rcases Nat.eq_zero_or_pos k with hk0 | hkpos
    · subst hk0
      rw [allowedAt, iterDispatch]
      rw [dispatch_of_none_allow (RateLimitMiddleware.initState rpm) "c" "/" t next
        (by decide) rfl (by exact_mod_cast h)]
    · obtain ⟨n, rfl⟩ : ∃ n, k = n + 1 := ⟨k - 1, by omega⟩
      rw [allowedAt, iter_burst_succ rpm h t next n (by omega)]
      have hge : (1 : ℚ) ≤ (rpm : ℚ) - ((n : ℚ) + 1) := by
        have hz : (n : ℤ) + 2 ≤ rpm := by omega
        have hq : ((n : ℚ)) + 2 ≤ (rpm : ℚ) := by exact_mod_cast hz
        linarith
      have hnt := newTokens_single rpm ((rpm : ℚ) - ((n : ℚ) + 1)) t ((rpm : ℚ) / 60)
      rw [dispatch_of_some_allow _ "c" "/" t next
        { tokens := (rpm : ℚ) - ((n : ℚ) + 1), lastRefill := t }
        (by decide) (by simp [Store.lookup])
        (by rw [hnt]; exact le_min (by exact_mod_cast h) hge)]
  · have htn : 1 ≤ rpm.toNat := by omega
    obtain ⟨n, hn⟩ : ∃ n, rpm.toNat = n + 1 := ⟨rpm.toNat - 1, by omega⟩
    rw [allowedAt, hn, iter_burst_succ rpm h t next n (by omega)]
    have hzero : (rpm : ℚ) - ((n : ℚ) + 1) = 0 := by
      have hz : (n : ℤ) + 1 = rpm := by omega
      have hq : ((n : ℚ)) + 1 = (rpm : ℚ) := by exact_mod_cast hz
      linarith
    have hnt := newTokens_single rpm ((rpm : ℚ) - ((n : ℚ) + 1)) t ((rpm : ℚ) / 60)
    rw [dispatch_of_some_deny _ "c" "/" t next
      { tokens := (rpm : ℚ) - ((n : ℚ) + 1), lastRefill := t }
      (by decide) (by simp [Store.lookup])
      (by rw [hnt, hzero]
          rw [min_eq_right (by exact_mod_cast (by omega : (0 : ℤ) ≤ rpm))]
          norm_num)]

/-- C5 witness: capacity 2 at instant 0: requests 1 and 2 admitted, request 3
denied. -/
theorem c5_burst_admission_witness :
    (1 : ℤ) ≤ 2 ∧
    allowedAt (RateLimitMiddleware.initState 2) "c" "/" 0 sampleNext 0 = true ∧
    allowedAt (RateLimitMiddleware.initState 2) "c" "/" 0 sampleNext 1 = true ∧
    allowedAt (RateLimitMiddleware.initState 2) "c" "/" 0 sampleNext ((2 : ℤ).toNat) = false :=
  ⟨by decide,
   (c5_burst_admission 2 (by decide) 0 sampleNext).1 0 (by decide),
   (c5_burst_admission 2 (by decide) 0 sampleNext).1 1 (by decide),
   (c5_burst_admission 2 (by decide) 0 sampleNext).2⟩

/-- C6: on every Deny the middleware short-circuits: call_next is not invoked
and the returned response is the 429 rejection carrying the Retry-After
header and the structured error body. -/
theorem c6_deny_short_circuits (m : RateLimitMiddleware) (client_ip path : String)
    (now : ℚ) (next : Response)
    (hp : ¬(path = "/health")) (hlt : m.newTokens client_ip now < 1) :
    (m.dispatch client_ip path now next).2.1 = false ∧
    (m.dispatch client_ip path now next).2.2.status_code = 429 ∧
    (m.dispatch client_ip path now next).2.2.headers = [("Retry-After", "60")] ∧
    (m.dispatch client_ip path now next).2.2.content =
      Content.errorObj "Rate limit exceeded. Please try again later." := by
  rw [dispatch_eq, if_neg hp, if_pos hlt]
  exact ⟨rfl, rfl, rfl, rfl⟩

/-- C6 witness: the denied third same-instant request of client c against
exhausted2 is short-circuited with the 429 rejection. -/
theorem c6_deny_short_circuits_witness :
    ¬(("/" : String) = "/health") ∧
    exhausted2.newTokens "c" 0 < 1 ∧
    ((exhausted2.dispatch "c" "/" 0 sampleNext).2.1 = false ∧
     (exhausted2.dispatch "c" "/" 0 sampleNext).2.2.status_code = 429 ∧
     (exhausted2.dispatch "c" "/" 0 sampleNext).2.2.headers = [("Retry-After", "60")] ∧
     (exhausted2.dispatch "c" "/" 0 sampleNext).2.2.content =
       Content.errorObj "Rate limit exceeded. Please try again later.") := by
  have hb : Store.lookup exhausted2.tokens "c" = some { tokens := 0, lastRefill := 0 } := by
    rw [exhausted2_eq]
    simp [Store.lookup]
  have hlt : exhausted2.newTokens "c" 0 < 1 := by
    rw [newTokens_of_some hb, exhausted2_eq]
    norm_num [min_def]
  exact ⟨by decide, hlt, c6_deny_short_circuits exhausted2 "c" "/" 0 sampleNext (by decide) hlt⟩

/-- C8 counterexample: capacity 0 satisfies the claim's invalid-configuration
condition (capacity ≤ 0 and refill rate ≤ 0), yet construction succeeds:
__init__ performs no validation and raises nothing. -/
theorem c8_invalid_config_accepted :
    (0 : ℤ) ≤ 0 ∧
    RateLimitMiddleware.init 0 = .ok (RateLimitMiddleware.initState 0) ∧
    (RateLimitMiddleware.initState 0).refill_rate ≤ 0 :=
  ⟨le_refl 0, rfl, by norm_num [RateLimitMiddleware.initState]⟩

/-- C8 amended: construction never validates the configuration and always
succeeds, including for capacity ≤ 0; such a misconfiguration surfaces only
at request time, where every request to a non-bypass path, against every
state of the misconfigured limiter (the refill count is capped at the
capacity, so it never reaches 1), is denied. -/
theorem c8_no_startup_validation (rpm : ℤ) (h : rpm ≤ 0) :
    RateLimitMiddleware.init rpm = .ok (RateLimitMiddleware.initState rpm) ∧
    ∀ (m : RateLimitMiddleware), m.requests_per_minute = rpm →
      ∀ (client_ip path : String) (now : ℚ) (next : Response), ¬(path = "/health") →
        (m.dispatch client_ip path now next).2.1 = false := by
  refine ⟨rfl, ?_⟩
  intro m hm client_ip path now next hpath
  have hq : ((m.requests_per_minute : ℤ) : ℚ) ≤ 0 := by
    rw [hm]
    exact_mod_cast h
  have hlt : m.newTokens client_ip now < 1 :=
    lt_of_le_of_lt (le_trans (newTokens_le m client_ip now) hq) one_pos
  rw [dispatch_eq, if_neg hpath, if_pos hlt]

/-- C8 amended witness: capacity 0 is accepted at startup, and the request of
client c to the non-bypass path /api at time 7, against the constructed
state, is denied. -/
theorem c8_no_startup_validation_witness :
    (0 : ℤ) ≤ 0 ∧
    RateLimitMiddleware.init 0 = .ok (RateLimitMiddleware.initState 0) ∧
    (RateLimitMiddleware.initState 0).requests_per_minute = 0 ∧
    ¬(("/api" : String) = "/health") ∧
    ((RateLimitMiddleware.initState 0).dispatch "c" "/api" 7 sampleNext).2.1 = false :=
  ⟨by decide, (c8_no_startup_validation 0 (by decide)).1, rfl, by decide,
   (c8_no_startup_validation 0 (by decide)).2 (RateLimitMiddleware.initState 0) rfl
     "c" "/api" 7 sampleNext (by decide)⟩

/-- C9: when call_next fails, the logging wrapper records the failure with
its duration and returns the very same failure: it never swallows it and
never converts it into a successful response. -/
theorem c9_downstream_failure_propagated (method path : String)
    (start_time finish_time : ℚ) (e : String) :
    (RequestLoggingMiddleware.dispatch method path start_time finish_time (.error e)).2 =
      .error e ∧
    LogEntry.errorLine method path e (finish_time - start_time) ∈
      (RequestLoggingMiddleware.dispatch method path start_time finish_time (.error e)).1 := by
  simp [RequestLoggingMiddleware.dispatch]

/-- C10: with a positive configured capacity, a denied evaluation returns the
middleware state completely unchanged: no bucket of any client is created or
modified, so the denied request is invisible to later refill computations. -/
theorem c10_deny_state_unchanged (m : RateLimitMiddleware) (client_ip path : String)
    (now : ℚ) (next : Response) (hrpm : 1 ≤ m.requests_per_minute)
    (hden : (m.dispatch client_ip path now next).2.1 = false) :
    (m.dispatch client_ip path now next).1 = m := by
  cases hlook : Store.lookup m.tokens client_ip with
  | none =>
      exfalso
      have hnt := @newTokens_of_none m client_ip now hlook
      rw [dispatch_eq] at hden
      split_ifs at hden with hp hlt
      rw [hnt] at hlt
      have hq : (1 : ℚ) ≤ (m.requests_per_minute : ℚ) := by exact_mod_cast hrpm
      have hlt2 : ((m.requests_per_minute : ℤ) : ℚ) < 1 := hlt
      linarith
  | some b =>
      rw [dispatch_eq] at hden ⊢
      split_ifs at hden ⊢ with hp hlt
      show ({ m with tokens := m.lazyInitStore client_ip now } : RateLimitMiddleware) = m
      rw [lazyInitStore_of_some hlook]

/-- C10 witness: the denied third same-instant request of client c leaves
exhausted2 exactly as it was. -/
theorem c10_deny_state_unchanged_witness :
    (1 : ℤ) ≤ exhausted2.requests_per_minute ∧
    (exhausted2.dispatch "c" "/" 0 sampleNext).2.1 = false ∧
    (exhausted2.dispatch "c" "/" 0 sampleNext).1 = exhausted2 := by
  have hrpm : (1 : ℤ) ≤ exhausted2.requests_per_minute := by
    rw [exhausted2_eq]
    decide
  have hb : Store.lookup exhausted2.tokens "c" = some { tokens := 0, lastRefill := 0 } := by
    rw [exhausted2_eq]
    simp [Store.lookup]
  have hlt : exhausted2.newTokens "c" 0 < 1 := by
    rw [newTokens_of_some hb, exhausted2_eq]
    norm_num [min_def]
  have hden : (exhausted2.dispatch "c" "/" 0 sampleNext).2.1 = false := by
    rw [dispatch_of_some_deny exhausted2 "c" "/" 0 sampleNext _ (by decide) hb hlt]
  exact ⟨hrpm, hden, c10_deny_state_unchanged exhausted2 "c" "/" 0 sampleNext hrpm hden⟩
